import Mathlib

/-!
Verification development for the spend-analytics batch categorization pipeline
(`src/src/functions.py`: `categorize_lookup_table`, `retry_errors`;
`src/src/tokens.py`: `calculate_exact_ai_cost`; `src/tests/test.py`: the
module-level configuration check).

The shallow embedding mirrors the Python source:
* the pandas working table becomes a `List Row` whose positions play the role
  of the DataFrame's default RangeIndex labels;
* network I/O (the `requests.post` calls to the completion endpoint) is an
  oracle `Nat → HttpResult` giving the outcome of the k-th POST of the run;
* the identity-provider exchange (`get_token`) is an external capability: the
  run is parameterized by whether the startup exchange succeeds, and mid-run
  refreshes are modelled as always succeeding (the refresh endpoint is out of
  scope per the spec);
* the JSON text of a completion response is modelled after `json.loads` has
  been interpreted: either it fails JSON decoding (`notJson`), or it is an
  array whose elements either carry the three expected fields (`good`) or make
  the `item['index']` access raise (`bad`).  The completion envelope
  (`result['choices'][0]['message']['content']`) is assumed well-formed, as the
  completion service is an out-of-scope capability;
* uncaught Python exceptions (KeyError / TypeError / IndexError / ValueError)
  are threaded explicitly as a `crashed : Option String` field — the Python
  `try` block catches only `json.JSONDecodeError` and
  `requests.exceptions.RequestException`.
-/

namespace SpendStreamlet

/-- A row of the lookup table: the two input columns used to build the prompt
and the two nullable output columns (`functions.py` lines 296-300, 347-348). -/
structure Row where
  vendor : String
  lineItem : String
  category : Option String
  subCategory : Option String
deriving Repr, DecidableEq

/-- One element of the decoded JSON array (`parsed` at `functions.py` line 342).
`good i c s` is a `{"index": i, "category": c, "sub_category": s}` object with
an integer index (Python ints are unbounded, hence `Int`).  `bad` is an element
for which evaluating `item['index']` (line 345) raises — a non-object element,
or an object without an `'index'` key, or one whose index does not compare with
an int.  Elements that have an integer index but lack one of the label fields
are outside the modelled space. -/
inductive JsonItem where
  | good (index : Int) (category subCategory : String)
  | bad
deriving Repr, DecidableEq

/-- The completion text, seen through `json.loads` (line 342): either the text
is not decodable as JSON (`json.JSONDecodeError`), or it decodes to an array of
elements. -/
inductive CompletionText where
  | notJson
  | jsonArray (items : List JsonItem)
deriving Repr, DecidableEq

/-- Outcome of one `requests.post` to the completion endpoint (lines 324, 331):
either the call itself raises a transport-level `RequestException`, or an HTTP
response with a status code and completion text comes back. -/
inductive HttpResult where
  | transportError (msg : String)
  | response (status : Nat) (text : CompletionText)
deriving Repr

/-- The environment-style configuration read at `functions.py` lines 27-32.
Each `os.getenv` yields `None` when the variable is unset.  Note that the
pipeline reads these fields but performs no presence validation on them. -/
structure Config where
  tenantId : Option String
  clientId : Option String
  clientSecret : Option String
  serviceName : Option String
  deploymentName : Option String
  apiVersion : Option String
deriving Repr, DecidableEq

/-- Python's `str(e)[:100]` (line 362): keep at most the first 100 characters. -/
def truncate100 (s : String) : String :=
  ⟨s.data.take 100⟩

/-- The message of the `requests.exceptions.HTTPError` raised by
`response.raise_for_status()` (line 333) for a status-`s` response. -/
def httpErrorMsg (s : Nat) : String :=
  toString s ++ " Error for url"

/-- Python list subscription `batch_indices[i]` for an unbounded int `i`
(line 346): non-negative indices address from the front, negative indices wrap
around from the back, and anything out of range raises `IndexError` (`none`). -/
def pyGet (l : List Nat) (i : Int) : Option Nat :=
  if 0 ≤ i then l[i.toNat]?
  else if -(l.length : Int) ≤ i then l[((l.length : Int) + i).toNat]?
  else none

/-- `lookup_df.loc[idx, 'category'] = c; lookup_df.loc[idx, 'sub_category'] = s`
(lines 347-348 and 354-356, 360-362): overwrite the two output columns of the
row at position `i`.  Positions produced by the planner are always in range, so
the out-of-range fallback is never exercised. -/
def setRowFields (t : List Row) (i : Nat) (c s : Option String) : List Row :=
  match t[i]? with
  | some r => t.set i { r with category := c, subCategory := s }
  | none => t

/-- The sentinel-marking loops (lines 354-356 and 360-362): write the given
category/sub_category into every row of the batch, in order. -/
def markAll (t : List Row) (idxs : List Nat) (c s : Option String) : List Row :=
  idxs.foldl (fun acc i => setRowFields acc i c s) t

/-- The result-application loop over the decoded entries (lines 344-349):
returns the updated table, the number of `processed_count` increments, and the
uncaught exception if one is raised.  An entry whose `index` compares `<` the
batch length is applied at `batch_indices[index]` (negative indices wrap; an
index below `-len` raises `IndexError`); an entry with `index ≥ len` is
skipped; a `bad` entry raises (`KeyError`) at the `item['index']` access.
Entries applied before a raise keep their effect (the DataFrame is mutated in
place). -/
def applyItems : List JsonItem → List Row → List Nat → Nat →
    List Row × Nat × Option String
  | [], t, _, p => (t, p, none)
  | .bad :: _, t, _, p => (t, p, some "KeyError")
  | .good i c s :: rest, t, bIdx, p =>
    if i < (bIdx.length : Int) then
      match pyGet bIdx i with
      | none => (t, p, some "IndexError")
      | some a => applyItems rest (setRowFields t a (some c) (some s)) bIdx (p + 1)
    else applyItems rest t bIdx p

/-- Terminal outcome of one batch within the `try/except` (lines 323-362). -/
inductive BatchOutcome where
  | applied (newTable : List Row) (delta : Nat) (crash : Option String)
  | parseFailed
  | apiFailed (msg : String)
deriving Repr

/-- Handling of the response that survives the 401 special-case
(lines 333-349): `raise_for_status()` raises `HTTPError` (a caught
`RequestException`) exactly for client/server error statuses
`400 ≤ status < 600`; any other status — including a nonstandard one of 600 or
above, which `requests` passes through — proceeds to body parsing, where
JSON-decoding failure is the caught `json.JSONDecodeError` and a decoded array
goes through the application loop. -/
def handleResponse (status : Nat) (text : CompletionText) (t : List Row)
    (bIdx : List Nat) : BatchOutcome :=
  if 400 ≤ status ∧ status < 600 then .apiFailed (httpErrorMsg status)
  else
    match text with
    | .notJson => .parseFailed
    | .jsonArray items =>
      .applied (applyItems items t bIdx 0).1 (applyItems items t bIdx 0).2.1
        (applyItems items t bIdx 0).2.2

/-- The dispatch protocol of one batch (lines 324-331): POST once; on a 401
refresh the credential and POST the identical request exactly once more; any
transport-level exception is caught.  Returns the outcome together with the
number of POST attempts (1 or 2) and the number of credential refreshes
(0 or 1).  `get_token` during a refresh is modelled as succeeding (credential
provider is a capability per the spec). -/
def classifyBatch (oracle : Nat → HttpResult) (p : Nat) (t : List Row)
    (bIdx : List Nat) : BatchOutcome × Nat × Nat :=
  match oracle p with
  | .transportError e => (.apiFailed e, 1, 0)
  | .response s₁ t₁ =>
    if s₁ = 401 then
      match oracle (p + 1) with
      | .transportError e => (.apiFailed e, 2, 1)
      | .response s₂ t₂ => (handleResponse s₂ t₂ t bIdx, 2, 1)
    else
      (handleResponse s₁ t₁ t bIdx, 1, 0)

/-- Mutable state of the batch loop (lines 287-369): the working table, the
POST counter (which indexes the oracle), and the counters and checkpoint log
of the run. -/
structure LoopState where
  table : List Row
  posts : Nat
  refreshes : Nat
  processed : Nat
  errors : Nat
  batchesDone : Nat
  writes : List (List Row)
  crashed : Option String
deriving Repr

/-- One iteration of the batch loop, lines 292-362 (request, single
auth-refresh retry, parse, apply or sentinel-mark). -/
def runBatch (oracle : Nat → HttpResult) (bIdx : List Nat) (st : LoopState) :
    LoopState :=
  match classifyBatch oracle st.posts st.table bIdx with
  | (outcome, dp, dr) =>
    let st1 := { st with posts := st.posts + dp, refreshes := st.refreshes + dr,
                         batchesDone := st.batchesDone + 1 }
    match outcome with
    | .applied t2 d crash =>
      { st1 with table := t2, processed := st.processed + d, crashed := crash }
    | .parseFailed =>
      { st1 with table := markAll st.table bIdx (some "PARSE_ERROR") (some "Retry needed"),
                 errors := st.errors + bIdx.length }
    | .apiFailed e =>
      { st1 with table := markAll st.table bIdx (some "API_ERROR") (some (truncate100 e)),
                 errors := st.errors + bIdx.length }

/-- The checkpoint cadence (lines 365-367): after the k-th batch (1-based,
`i // rows_per_call + 1`), persist the full working table iff `k % 10 == 0`. -/
def checkpointMaybe (st : LoopState) : LoopState :=
  if st.batchesDone % 10 = 0 then { st with writes := st.writes ++ [st.table] }
  else st

/-- The whole batch loop (lines 291-369).  An uncaught exception aborts the
loop immediately (skipping that iteration's checkpoint and all later work). -/
def runBatches (oracle : Nat → HttpResult) : List (List Nat) → LoopState → LoopState
  | [], st => st
  | b :: bs, st =>
    let st1 := runBatch oracle b st
    if st1.crashed.isSome then st1
    else runBatches oracle bs (checkpointMaybe st1)

/-- `lookup_df['category'].isna()` at position `i` (line 274). -/
def rowIsNull (t : List Row) (i : Nat) : Bool :=
  match t[i]? with
  | some r => r.category.isNone
  | none => false

/-- The planner's eligible-identifier list (lines 274-275, 287): the positions
whose `category` is null, in table order. -/
def planIndices (t : List Row) : List Nat :=
  (List.range t.length).filter (rowIsNull t)

/-- The optional cap (lines 277-278): Python's `if batch_size:` treats both
`None` and `0` as falsy, so only a positive cap truncates. -/
def truncPlan (elig : List Nat) : Option Nat → List Nat
  | none => elig
  | some b => if b = 0 then elig else elig.take b

/-- Fuel-driven worker for the batch windowing, structurally recursive so that
it evaluates by kernel reduction.  With `fuel ≥ l.length` and `0 < r` it
produces the consecutive windows of length `r` (last possibly shorter). -/
def chunkListFuel (r : Nat) : Nat → List Nat → List (List Nat)
  | _, [] => []
  | 0, _ :: _ => []
  | fuel + 1, x :: xs => ((x :: xs).take r) :: chunkListFuel r fuel ((x :: xs).drop r)

/-- `range(0, len(indices), rows_per_call)` windowing (lines 291-292):
consecutive windows of length `r`, the last possibly shorter.  The `r = 0`
case is unreachable (the orchestrator models Python's `ValueError` for a zero
step before this point). -/
def chunkList (r : Nat) (l : List Nat) : List (List Nat) :=
  chunkListFuel r l.length l

/-- The observable outcome of a `categorize_lookup_table` run: the returned
(or, after a crash, in-place mutated) table, the checkpoint snapshots written
in order, the POST attempts to the completion endpoint, the credential
refreshes, the identity-provider calls (`get_token`), the number of planned
batches, the two counters, and the uncaught exception if any. -/
structure OrchestratorResult where
  table : List Row
  writes : List (List Row)
  posts : Nat
  refreshes : Nat
  tokenFetches : Nat
  numBatches : Nat
  processed : Nat
  errors : Nat
  crashed : Option String
deriving Repr

/-- `categorize_lookup_table` (`functions.py` lines 11-396).  The config is
read (lines 27-32) but never validated — `cfg` is accordingly unused.  The
startup `get_token()` (line 57) precedes planning; its failure propagates
uncaught.  Zero eligible rows return the table before any batch work
(lines 280-282) — note: after the token fetch, and without writing a
checkpoint.  `rows_per_call = 0` makes `range(0, n, 0)` raise `ValueError`. -/
def categorize_lookup_table (cfg : Config) (startupTokenOk : Bool)
    (oracle : Nat → HttpResult) (lookup_df : List Row) (batch_size : Option Nat)
    (rows_per_call : Nat) : OrchestratorResult :=
  if startupTokenOk = false then
    { table := lookup_df, writes := [], posts := 0, refreshes := 0,
      tokenFetches := 1, numBatches := 0, processed := 0, errors := 0,
      crashed := some "TokenRequestError" }
  else
    let planned := truncPlan (planIndices lookup_df) batch_size
    if planned.length = 0 then
      { table := lookup_df, writes := [], posts := 0, refreshes := 0,
        tokenFetches := 1, numBatches := 0, processed := 0, errors := 0,
        crashed := none }
    else if rows_per_call = 0 then
      { table := lookup_df, writes := [], posts := 0, refreshes := 0,
        tokenFetches := 1, numBatches := 0, processed := 0, errors := 0,
        crashed := some "ValueError" }
    else
      let batches := chunkList rows_per_call planned
      let st := runBatches oracle batches
        { table := lookup_df, posts := 0, refreshes := 0, processed := 0,
          errors := 0, batchesDone := 0, writes := [], crashed := none }
      match st.crashed with
      | some e =>
        { table := st.table, writes := st.writes, posts := st.posts,
          refreshes := st.refreshes, tokenFetches := 1 + st.refreshes,
          numBatches := batches.length, processed := st.processed,
          errors := st.errors, crashed := some e }
      | none =>
        { table := st.table, writes := st.writes ++ [st.table], posts := st.posts,
          refreshes := st.refreshes, tokenFetches := 1 + st.refreshes,
          numBatches := batches.length, processed := st.processed,
          errors := st.errors, crashed := none }

/-- The error-sentinel mask `lookup_df['category'].isin(['PARSE_ERROR',
'API_ERROR'])` (line 404). -/
def isErrorRow (r : Row) : Bool :=
  r.category == some "PARSE_ERROR" || r.category == some "API_ERROR"

/-- Resetting the sentinel rows to null (lines 414-415). -/
def clearedTable (t : List Row) : List Row :=
  t.map fun r =>
    if isErrorRow r then { r with category := none, subCategory := none } else r

/-- The positions of the sentinel rows of a table. -/
def errorPositions (t : List Row) : List Nat :=
  (List.range t.length).filter fun i =>
    match t[i]? with
    | some r => isErrorRow r
    | none => false

/-- `retry_errors` (`functions.py` lines 399-418): with no sentinel rows the
table is returned immediately; otherwise the sentinel rows are cleared to null
and the orchestrator is re-run with `batch_size` equal to the sentinel count
and `rows_per_call = 1`. -/
def retry_errors (cfg : Config) (startupTokenOk : Bool)
    (oracle : Nat → HttpResult) (lookup_df : List Row) : OrchestratorResult :=
  let error_count := (lookup_df.filter isErrorRow).length
  if error_count = 0 then
    { table := lookup_df, writes := [], posts := 0, refreshes := 0,
      tokenFetches := 0, numBatches := 0, processed := 0, errors := 0,
      crashed := none }
  else
    categorize_lookup_table cfg startupTokenOk oracle (clearedTable lookup_df)
      (some error_count) 1

/-- Python truthiness of an `os.getenv` result: `None` and the empty string
are falsy. -/
def pyFalsy : Option String → Bool
  | none => true
  | some s => s == ""

/-- The module-level configuration check of `src/tests/test.py` lines 18-19:
`if not CLIENT_ID or not CLIENT_SECRET: raise ValueError(...)`. -/
def testScriptConfigCheck (clientId clientSecret : Option String) :
    Except String Unit :=
  if pyFalsy clientId || pyFalsy clientSecret then
    .error "Please set CLIENT_ID and SECRET_VALUE in your .env file"
  else
    .ok ()

/-- The per-million-token price table of `tokens.py` lines 30-33, as exact
rationals.  An absent key is Python's `KeyError` (`none`). -/
def pricing : String → Option (ℚ × ℚ)
  | "gpt-4o-mini" => some (15 / 100, 60 / 100)
  | "gpt-4o" => some (5 / 2, 10)
  | _ => none

/-- The cost computation of `calculate_exact_ai_cost` (`tokens.py` lines
38-40), taking the token totals directly (the tiktoken counting prelude is an
external capability): `(input/1M)·price_in + (output/1M)·price_out`, with an
unknown model name surfacing as the `KeyError` from `pricing[model]`. -/
def ai_cost (model : String) (totalInputTokens totalOutputTokens : ℕ) :
    Except String ℚ :=
  match pricing model with
  | none => .error "KeyError"
  | some p =>
    .ok ((totalInputTokens : ℚ) / 1000000 * p.1 +
         (totalOutputTokens : ℚ) / 1000000 * p.2)

/-- `calculate_exact_ai_cost` (`tokens.py` lines 6-49) with the per-row token
counts supplied by the capability: input tokens are their sum and the output
estimate is 50 tokens per row (line 36). -/
def calculate_exact_ai_cost (rowTokenCounts : List ℕ) (model : String) :
    Except String ℚ :=
  ai_cost model rowTokenCounts.sum (rowTokenCounts.length * 50)

/-- The end-of-run cost summary of `functions.py` lines 374-377, which
hard-codes the gpt-4o-mini prices `$0.15`/`$0.60` per million tokens. -/
def runCostSummary (totalInputTokens totalOutputTokens : ℕ) : ℚ :=
  (totalInputTokens : ℚ) / 1000000 * (15 / 100) +
  (totalOutputTokens : ℚ) / 1000000 * (60 / 100)

/-! ## Shared concrete inputs for witnesses and counterexamples -/

/-- An all-absent configuration. -/
def emptyConfig : Config := ⟨none, none, none, none, none, none⟩

/-- An unprocessed row. -/
def blankRow : Row := ⟨"v", "l", none, none⟩

/-- An already-categorized row. -/
def doneRow : Row := ⟨"v", "l", some "Development", some "IDEs"⟩

/-- An oracle answering every POST with a well-formed single-entry response. -/
def okOracle : Nat → HttpResult :=
  fun _ => .response 200 (.jsonArray [.good 0 "Development" "IDEs"])

/-! ## C9 — cost accountant -/

/-- C9: the cost accountant computes `(input/1M)·price_in + (output/1M)·price_out`
for any token totals under the gpt-4o-mini prices; 1,000,000 input tokens and 0
output tokens at `{input: 0.15, output: 0.60}` per million yield exactly $0.15
(both in `tokens.py`'s table-driven function and in the hard-coded end-of-run
summary of `functions.py`); a model name absent from the price table is a
`KeyError`, never a silent zero. -/
theorem C9_cost_formula :
    (∀ i o : ℕ, ai_cost "gpt-4o-mini" i o =
      .ok ((i : ℚ) / 1000000 * (15 / 100) + (o : ℚ) / 1000000 * (60 / 100))) ∧
    ai_cost "gpt-4o-mini" 1000000 0 = .ok (15 / 100) ∧
    runCostSummary 1000000 0 = 15 / 100 ∧
    (∀ m, pricing m = none → ∀ i o : ℕ, ai_cost m i o = .error "KeyError") ∧
    pricing "gpt-5" = none := by
  refine ⟨fun i o => rfl, ?_, ?_, fun m hm i o => by simp [ai_cost, hm], rfl⟩
  · show Except.ok ((1000000 : ℚ) / 1000000 * (15 / 100) +
      (0 : ℚ) / 1000000 * (60 / 100)) = Except.ok (15 / 100)
    norm_num
  · show (1000000 : ℚ) / 1000000 * (15 / 100) +
      (0 : ℚ) / 1000000 * (60 / 100) = 15 / 100
    norm_num

/-- Witness for C9: the unknown-model conjunct applied at a concrete model
name and concrete token totals. -/
theorem C9_cost_formula_witness :
    ai_cost "gpt-5" 1000000 0 = .error "KeyError" :=
  C9_cost_formula.2.2.2.1 "gpt-5" C9_cost_formula.2.2.2.2 1000000 0

/-! ## C10 — retry with no sentinel rows is a no-op -/

/-- C10: on a table with no `PARSE_ERROR`/`API_ERROR` row, `retry_errors`
returns the table unchanged immediately: no row modified, no network call
(neither a completion POST nor a token fetch), no checkpoint write. -/
theorem C10_retry_noop (cfg : Config) (sOk : Bool) (oracle : Nat → HttpResult)
    (t : List Row) (h : ∀ r ∈ t, isErrorRow r = false) :
    retry_errors cfg sOk oracle t =
      { table := t, writes := [], posts := 0, refreshes := 0, tokenFetches := 0,
        numBatches := 0, processed := 0, errors := 0, crashed := none } := by
  have hf : t.filter isErrorRow = [] :=
    List.filter_eq_nil_iff.mpr (fun a ha => by simp [h a ha])
  simp [retry_errors, hf]

/-- Witness for C10 on a concrete sentinel-free table, with an oracle that
would fail any call that were (wrongly) made. -/
theorem C10_retry_noop_witness :
    retry_errors emptyConfig true (fun _ => .transportError "down")
        [doneRow, blankRow] =
      { table := [doneRow, blankRow], writes := [], posts := 0, refreshes := 0,
        tokenFetches := 0, numBatches := 0, processed := 0, errors := 0,
        crashed := none } :=
  C10_retry_noop emptyConfig true (fun _ => .transportError "down")
    [doneRow, blankRow] (by decide)

/-! ## C5 — fully processed table -/

/-- Counterexample to C5 as stated: on a table whose single row is already
categorized, the run still performs one outbound API call — the POST to the
identity provider (`get_token()` at line 57 runs before the zero-eligible
check at line 280) — so "performs zero API calls" is false; zero *completion*
calls are made. -/
theorem C5_counterexample :
    (categorize_lookup_table emptyConfig true (fun _ => .transportError "x")
        [doneRow] none 10).tokenFetches = 1 ∧
    (categorize_lookup_table emptyConfig true (fun _ => .transportError "x")
        [doneRow] none 10).posts = 0 := by
  constructor <;> rfl

/-- C5 as amended: on a table where every row already has a non-null
`category`, the run performs zero *completion-endpoint* calls, plans zero
batches, writes no checkpoint, returns the table unchanged without crashing —
but still performs exactly one identity-provider call (the startup
`get_token()`). -/
theorem C5_idempotent_run (cfg : Config) (oracle : Nat → HttpResult)
    (t : List Row) (b : Option Nat) (r : Nat)
    (h : ∀ row ∈ t, row.category ≠ none) :
    (categorize_lookup_table cfg true oracle t b r).posts = 0 ∧
    (categorize_lookup_table cfg true oracle t b r).numBatches = 0 ∧
    (categorize_lookup_table cfg true oracle t b r).table = t ∧
    (categorize_lookup_table cfg true oracle t b r).writes = [] ∧
    (categorize_lookup_table cfg true oracle t b r).tokenFetches = 1 ∧
    (categorize_lookup_table cfg true oracle t b r).crashed = none := by
  have hp : planIndices t = [] := by
    refine List.filter_eq_nil_iff.mpr ?_
    intro i hi
    rw [List.mem_range] at hi
    simp only [rowIsNull, List.getElem?_eq_getElem hi]
    have := h t[i] (List.getElem_mem hi)
    simp [Option.isNone_iff_eq_none, this]
  have ht : truncPlan (planIndices t) b = [] := by
    rw [hp]; cases b with
    | none => rfl
    | some k => simp [truncPlan]
  simp [categorize_lookup_table, ht]

/-- Witness for C5 on a concrete fully-categorized table. -/
theorem C5_idempotent_run_witness :
    (categorize_lookup_table emptyConfig true okOracle [doneRow] none 10).posts = 0 ∧
    (categorize_lookup_table emptyConfig true okOracle [doneRow] none 10).table =
      [doneRow] :=
  ⟨(C5_idempotent_run emptyConfig okOracle [doneRow] none 10 (by decide)).1,
   (C5_idempotent_run emptyConfig okOracle [doneRow] none 10 (by decide)).2.2.1⟩

/-! ## C2 — out-of-range local indices -/

/-- Counterexample to C2 as stated: an entry whose integer local index is `-1`
does not denote a position `0..n-1` of the batch, yet the code applies it — the
guard at line 345 only checks `index < len(batch_indices)`, and Python list
subscription wraps negative indices — so on a one-row batch it is written to
row 0 and bumps `processed_count` to 1. -/
theorem C2_counterexample :
    applyItems [.good (-1) "CatX" "SubY"] [blankRow] [0] 0 =
      ([⟨"v", "l", some "CatX", some "SubY"⟩], 1, none) := by decide

/-- C2 as amended: an entry's fate depends on its integer index `i` against
the batch row count `n` as follows — if `n ≤ i` it is ignored (not applied,
no counter); if `-n ≤ i < 0` it *is* applied, to the batch row at position
`n + i` (Python negative indexing); if `i < -n` it raises an uncaught
`IndexError`. -/
theorem C2_index_handling (t : List Row) (bIdx : List Nat) (p : Nat) (i : Int)
    (c s : String) (rest : List JsonItem) :
    ((bIdx.length : Int) ≤ i →
      applyItems (.good i c s :: rest) t bIdx p = applyItems rest t bIdx p) ∧
    (-(bIdx.length : Int) ≤ i → i < 0 →
      ∃ a, bIdx[((bIdx.length : Int) + i).toNat]? = some a ∧
        applyItems (.good i c s :: rest) t bIdx p =
          applyItems rest (setRowFields t a (some c) (some s)) bIdx (p + 1)) ∧
    (i < -(bIdx.length : Int) →
      applyItems (.good i c s :: rest) t bIdx p = (t, p, some "IndexError")) := by
  refine ⟨fun hge => ?_, fun hlo hneg => ?_, fun hfar => ?_⟩
  · rw [applyItems, if_neg (by omega)]
  · have hlt : i < (bIdx.length : Int) := by omega
    have hpos : ¬ (0 ≤ i) := by omega
    have hidx : (((bIdx.length : Int) + i).toNat) < bIdx.length := by omega
    refine ⟨bIdx[(((bIdx.length : Int) + i).toNat)], ?_, ?_⟩
    · exact List.getElem?_eq_getElem hidx
    · rw [applyItems, if_pos hlt]
      simp only [pyGet, if_neg hpos, if_pos hlo, List.getElem?_eq_getElem hidx]
  · have hlt : i < (bIdx.length : Int) := by omega
    rw [applyItems, if_pos hlt]
    simp only [pyGet, if_neg (show ¬ (0 ≤ i) by omega),
      if_neg (show ¬ (-(bIdx.length : Int) ≤ i) by omega)]

/-- Witness for C2: the ignore-branch applied at concrete index 5 against a
2-row batch (result: entry skipped), discharging the `n ≤ i` hypothesis. -/
theorem C2_index_handling_witness :
    applyItems [.good 5 "CatX" "SubY"] [blankRow, blankRow] [0, 1] 0 =
      applyItems [] [blankRow, blankRow] [0, 1] 0 :=
  (C2_index_handling [blankRow, blankRow] [0, 1] 0 5 "CatX" "SubY" []).1
    (by decide)

/-! ## C8 — configuration presence validation -/

/-- Counterexample to C8 as stated: with client id and client secret both
missing from the configuration, the pipeline does not fail at startup — it
proceeds to batch work (one completion POST, no exception): no presence
validation exists in `categorize_lookup_table` (lines 27-32 only read the
variables). -/
theorem C8_counterexample :
    (categorize_lookup_table
        ⟨some "tenant", none, none, some "svc", some "dep", some "v1"⟩ true
        okOracle [blankRow] none 10).posts = 1 ∧
    (categorize_lookup_table
        ⟨some "tenant", none, none, some "svc", some "dep", some "v1"⟩ true
        okOracle [blankRow] none 10).crashed = none := by
  constructor <;> rfl

/-- C8 as amended: presence validation of client id/secret exists only in the
standalone test script (`tests/test.py` lines 18-19, raising `ValueError` on a
missing or empty value); the pipeline's behaviour is entirely independent of
the configuration record (no validation), and what does hold is that the
startup token exchange precedes all batch work, so a failed exchange aborts the
run with zero completion calls and zero checkpoint writes. -/
theorem C8_config_validation :
    (∀ cid sec : Option String, (pyFalsy cid || pyFalsy sec) = true →
      testScriptConfigCheck cid sec =
        .error "Please set CLIENT_ID and SECRET_VALUE in your .env file") ∧
    (∀ cfg cfg2 : Config, ∀ sOk oracle t b r,
      categorize_lookup_table cfg sOk oracle t b r =
        categorize_lookup_table cfg2 sOk oracle t b r) ∧
    (∀ cfg : Config, ∀ oracle t b r,
      (categorize_lookup_table cfg false oracle t b r).posts = 0 ∧
      (categorize_lookup_table cfg false oracle t b r).writes = [] ∧
      (categorize_lookup_table cfg false oracle t b r).crashed =
        some "TokenRequestError") := by
  refine ⟨fun cid sec hf => ?_, fun _ _ _ _ _ _ _ => rfl,
    fun cfg oracle t b r => ?_⟩
  · simp [testScriptConfigCheck, hf]
  · refine ⟨?_, ?_, ?_⟩ <;> simp [categorize_lookup_table]

/-- Witness for C8: the test-script check rejects a missing client id. -/
theorem C8_config_validation_witness :
    testScriptConfigCheck none (some "secret") =
      .error "Please set CLIENT_ID and SECRET_VALUE in your .env file" :=
  C8_config_validation.1 none (some "secret") (by decide)

/-! ## Helper lemmas on the batch step -/

/-- The bookkeeping fields of one batch step: POSTs and refreshes advance by
the amounts reported by `classifyBatch`, the batch counter advances by one,
and checkpoints are never written inside the step itself. -/
theorem runBatch_counters (oracle : Nat → HttpResult) (bIdx : List Nat)
    (st : LoopState) :
    (runBatch oracle bIdx st).posts =
      st.posts + (classifyBatch oracle st.posts st.table bIdx).2.1 ∧
    (runBatch oracle bIdx st).refreshes =
      st.refreshes + (classifyBatch oracle st.posts st.table bIdx).2.2 ∧
    (runBatch oracle bIdx st).batchesDone = st.batchesDone + 1 ∧
    (runBatch oracle bIdx st).writes = st.writes := by
  unfold runBatch
  rcases hc : classifyBatch oracle st.posts st.table bIdx with ⟨outcome, dp, dr⟩
  cases outcome <;> simp [hc]

/-! ## C1 — malformed completion text -/

/-- Counterexample to C1 as stated: a completion text that is valid JSON but
not the expected structure (an array whose element has no `index` field) does
*not* produce `PARSE_ERROR` sentinels — the `except json.JSONDecodeError`
clause does not catch the `KeyError` raised at line 345, and the run crashes. -/
theorem C1_counterexample :
    (categorize_lookup_table emptyConfig true
        (fun _ => .response 200 (.jsonArray [.bad])) [blankRow] none
        10).crashed = some "KeyError" := by rfl

/-- C1 as amended: only a completion text that fails *JSON decoding* is
recovered at batch granularity — every row of the batch gets the `PARSE_ERROR`
sentinel with sub_category `Retry needed`, no entry is applied, no counter of
processed rows moves, and the loop continues with the remaining batches.  A
text that decodes as JSON but whose element lacks the expected `index` field
instead raises an uncaught `KeyError` and crashes the run. -/
theorem C1_parse_isolation (oracle : Nat → HttpResult) (st : LoopState)
    (bIdx : List Nat) :
    (oracle st.posts = .response 200 .notJson →
      (runBatch oracle bIdx st).table =
        markAll st.table bIdx (some "PARSE_ERROR") (some "Retry needed") ∧
      (runBatch oracle bIdx st).crashed = st.crashed ∧
      (runBatch oracle bIdx st).processed = st.processed ∧
      (runBatch oracle bIdx st).errors = st.errors + bIdx.length ∧
      (runBatch oracle bIdx st).posts = st.posts + 1 ∧
      (st.crashed = none → ∀ bs, runBatches oracle (bIdx :: bs) st =
        runBatches oracle bs (checkpointMaybe (runBatch oracle bIdx st)))) ∧
    (∀ items, oracle st.posts = .response 200 (.jsonArray (.bad :: items)) →
      (runBatch oracle bIdx st).crashed = some "KeyError") := by
  constructor
  · intro h
    have hc : classifyBatch oracle st.posts st.table bIdx = (.parseFailed, 1, 0) := by
      simp [classifyBatch, h, handleResponse]
    have hcr : (runBatch oracle bIdx st).crashed = st.crashed := by
      simp [runBatch, hc]
    refine ⟨by simp [runBatch, hc], hcr, by simp [runBatch, hc],
      by simp [runBatch, hc], by simp [runBatch, hc], ?_⟩
    intro hnone bs
    simp [runBatches, hcr, hnone]
  · intro items h
    have hc : classifyBatch oracle st.posts st.table bIdx =
        (.applied st.table 0 (some "KeyError"), 1, 0) := by
      simp [classifyBatch, h, handleResponse, applyItems]
    simp [runBatch, hc]

/-- Witness for C1: a concrete undecodable response on a one-row batch marks
the row with the `PARSE_ERROR` sentinel and does not crash. -/
theorem C1_parse_isolation_witness :
    (runBatch (fun _ => .response 200 .notJson) [0]
        ⟨[blankRow], 0, 0, 0, 0, 0, [], none⟩).table =
      markAll [blankRow] [0] (some "PARSE_ERROR") (some "Retry needed") ∧
    (runBatch (fun _ => .response 200 .notJson) [0]
        ⟨[blankRow], 0, 0, 0, 0, 0, [], none⟩).crashed = none :=
  ⟨((C1_parse_isolation (fun _ => .response 200 .notJson)
      ⟨[blankRow], 0, 0, 0, 0, 0, [], none⟩ [0]).1 rfl).1,
   ((C1_parse_isolation (fun _ => .response 200 .notJson)
      ⟨[blankRow], 0, 0, 0, 0, 0, [], none⟩ [0]).1 rfl).2.1⟩

/-! ## C4 — single auth refresh -/

/-- C4: when the first dispatch of a batch returns 401, the credential is
refreshed exactly once and the identical request is resent exactly once (two
POSTs total, one refresh, regardless of the second outcome); if the resend
succeeds — 200, or more generally any status outside the `raise_for_status`
error range `400..599`, which `requests` passes through — the decoded entries
are applied (the batch is `Applied`); if the resend fails again — a status in
`400..599`, 401 included, or a transport error — every row of the batch is
marked with the `API_ERROR` sentinel whose diagnostic text is truncated to at
most 100 characters, with no further retry. -/
theorem C4_auth_refresh (oracle : Nat → HttpResult) (st : LoopState)
    (bIdx : List Nat) (t1 : CompletionText)
    (h1 : oracle st.posts = .response 401 t1) :
    (runBatch oracle bIdx st).posts = st.posts + 2 ∧
    (runBatch oracle bIdx st).refreshes = st.refreshes + 1 ∧
    (∀ s2 items, oracle (st.posts + 1) = .response s2 (.jsonArray items) →
      ¬(400 ≤ s2 ∧ s2 < 600) →
      (runBatch oracle bIdx st).table = (applyItems items st.table bIdx 0).1 ∧
      (runBatch oracle bIdx st).processed =
        st.processed + (applyItems items st.table bIdx 0).2.1 ∧
      (runBatch oracle bIdx st).crashed = (applyItems items st.table bIdx 0).2.2 ∧
      (runBatch oracle bIdx st).errors = st.errors) ∧
    (∀ s2 t2, oracle (st.posts + 1) = .response s2 t2 → 400 ≤ s2 → s2 < 600 →
      (runBatch oracle bIdx st).table =
        markAll st.table bIdx (some "API_ERROR")
          (some (truncate100 (httpErrorMsg s2))) ∧
      (runBatch oracle bIdx st).errors = st.errors + bIdx.length ∧
      (runBatch oracle bIdx st).crashed = st.crashed) ∧
    (∀ e, oracle (st.posts + 1) = .transportError e →
      (runBatch oracle bIdx st).table =
        markAll st.table bIdx (some "API_ERROR") (some (truncate100 e)) ∧
      (runBatch oracle bIdx st).errors = st.errors + bIdx.length) ∧
    (∀ x : String, (truncate100 x).length ≤ 100) := by
  have hdp : (classifyBatch oracle st.posts st.table bIdx).2 = (2, 1) := by
    cases h2 : oracle (st.posts + 1) <;> simp [classifyBatch, h1, h2]
  refine ⟨?_, ?_, ?_, ?_, ?_, ?_⟩
  · rw [(runBatch_counters oracle bIdx st).1, hdp]
  · rw [(runBatch_counters oracle bIdx st).2.1, hdp]
  · intro s2 items h2 hs
    rcases hA : applyItems items st.table bIdx 0 with ⟨T, d, c⟩
    have hc : classifyBatch oracle st.posts st.table bIdx =
        (.applied T d c, 2, 1) := by
      simp [classifyBatch, h1, h2, handleResponse, hA, hs]
    simp [runBatch, hc, hA]
  · intro s2 t2 h2 hs2 hs2'
    have hc : classifyBatch oracle st.posts st.table bIdx =
        (.apiFailed (httpErrorMsg s2), 2, 1) := by
      simp [classifyBatch, h1, h2, handleResponse, hs2, hs2']
    simp [runBatch, hc]
  · intro e h2
    have hc : classifyBatch oracle st.posts st.table bIdx =
        (.apiFailed e, 2, 1) := by
      simp [classifyBatch, h1, h2]
    simp [runBatch, hc]
  · intro x
    show (x.data.take 100).length ≤ 100
    simp [List.length_take]

/-- A concrete oracle returning a single 401 and then a well-formed 200. -/
def oracle401 : Nat → HttpResult := fun p =>
  if p = 0 then .response 401 .notJson
  else .response 200 (.jsonArray [.good 0 "Development" "IDEs"])

/-- Witness for C4: a 401 followed by a parseable 200 results in exactly two
POSTs, exactly one refresh, and the entry applied to the row. -/
theorem C4_auth_refresh_witness :
    (runBatch oracle401 [0] ⟨[blankRow], 0, 0, 0, 0, 0, [], none⟩).posts = 2 ∧
    (runBatch oracle401 [0] ⟨[blankRow], 0, 0, 0, 0, 0, [], none⟩).refreshes = 1 ∧
    (runBatch oracle401 [0] ⟨[blankRow], 0, 0, 0, 0, 0, [], none⟩).table =
      (applyItems [.good 0 "Development" "IDEs"] [blankRow] [0] 0).1 :=
  ⟨(C4_auth_refresh oracle401 ⟨[blankRow], 0, 0, 0, 0, 0, [], none⟩ [0]
      .notJson rfl).1,
   (C4_auth_refresh oracle401 ⟨[blankRow], 0, 0, 0, 0, 0, [], none⟩ [0]
      .notJson rfl).2.1,
   ((C4_auth_refresh oracle401 ⟨[blankRow], 0, 0, 0, 0, 0, [], none⟩ [0]
      .notJson rfl).2.2.1 200 [.good 0 "Development" "IDEs"] rfl (by decide)).1⟩

/-! ## Helper lemmas on the batch windowing -/

theorem chunkListFuel_nil (r f : Nat) : chunkListFuel r f [] = [] := by
  cases f <;> rfl

/-- The fuel argument is irrelevant once it covers the list length. -/
theorem chunkListFuel_congr (r : Nat) (hr : 0 < r) :
    ∀ f1 f2 (l : List Nat), l.length ≤ f1 → l.length ≤ f2 →
      chunkListFuel r f1 l = chunkListFuel r f2 l := by
  intro f1
  induction f1 with
  | zero =>
    intro f2 l h1 _
    have hl : l = [] := List.eq_nil_of_length_eq_zero (Nat.le_zero.mp h1)
    subst hl
    rw [chunkListFuel_nil, chunkListFuel_nil]
  | succ f ih =>
    intro f2 l h1 h2
    cases l with
    | nil => rw [chunkListFuel_nil, chunkListFuel_nil]
    | cons x xs =>
      cases f2 with
      | zero => simp at h2
      | succ f2' =>
        show ((x :: xs).take r) :: chunkListFuel r f ((x :: xs).drop r) =
          ((x :: xs).take r) :: chunkListFuel r f2' ((x :: xs).drop r)
        simp only [List.length_cons] at h1 h2
        congr 1
        apply ih
        · simp only [List.length_drop, List.length_cons]; omega
        · simp only [List.length_drop, List.length_cons]; omega

/-- Unfolding step of the windowing on a nonempty list. -/
theorem chunkList_cons_step (r : Nat) (hr : 0 < r) (l : List Nat) (hl : l ≠ []) :
    chunkList r l = l.take r :: chunkList r (l.drop r) := by
  cases l with
  | nil => exact absurd rfl hl
  | cons x xs =>
    show ((x :: xs).take r) :: chunkListFuel r xs.length ((x :: xs).drop r) =
      ((x :: xs).take r) :: chunkListFuel r ((x :: xs).drop r).length ((x :: xs).drop r)
    congr 1
    apply chunkListFuel_congr r hr
    · simp only [List.length_drop, List.length_cons]; omega
    · exact le_rfl

theorem chunkList_eq_nil_iff (r : Nat) (hr : 0 < r) (l : List Nat) :
    chunkList r l = [] ↔ l = [] := by
  constructor
  · intro h
    by_contra hl
    rw [chunkList_cons_step r hr l hl] at h
    exact List.cons_ne_nil _ _ h
  · intro h; subst h; rfl

/-- The windows concatenate back to the input list. -/
theorem chunkList_flatten (r : Nat) (hr : 0 < r) (l : List Nat) :
    (chunkList r l).flatten = l := by
  suffices h : ∀ n (l : List Nat), l.length ≤ n → (chunkList r l).flatten = l from
    h l.length l le_rfl
  intro n
  induction n with
  | zero =>
    intro l h
    have hl : l = [] := List.eq_nil_of_length_eq_zero (Nat.le_zero.mp h)
    subst hl; rfl
  | succ n ih =>
    intro l hln
    cases l with
    | nil => rfl
    | cons x xs =>
      rw [chunkList_cons_step r hr _ (List.cons_ne_nil x xs), List.flatten_cons,
        ih ((x :: xs).drop r)
          (by simp only [List.length_drop, List.length_cons]
              simp only [List.length_cons] at hln; omega)]
      exact List.take_append_drop r (x :: xs)

/-- Every window is nonempty and no longer than `r`. -/
theorem chunkList_window_bounds (r : Nat) (hr : 0 < r) (l : List Nat) :
    ∀ w ∈ chunkList r l, 0 < w.length ∧ w.length ≤ r := by
  suffices h : ∀ n (l : List Nat), l.length ≤ n →
      ∀ w ∈ chunkList r l, 0 < w.length ∧ w.length ≤ r from h l.length l le_rfl
  intro n
  induction n with
  | zero =>
    intro l h w hw
    have hl : l = [] := List.eq_nil_of_length_eq_zero (Nat.le_zero.mp h)
    subst hl; simp [chunkList, chunkListFuel] at hw
  | succ n ih =>
    intro l hln w hw
    cases l with
    | nil => simp [chunkList, chunkListFuel] at hw
    | cons x xs =>
      rw [chunkList_cons_step r hr _ (List.cons_ne_nil x xs)] at hw
      rcases List.mem_cons.mp hw with hw | hw
      · subst hw
        constructor <;> simp only [List.length_take, List.length_cons] <;> omega
      · exact ih ((x :: xs).drop r)
          (by simp only [List.length_drop, List.length_cons]
              simp only [List.length_cons] at hln; omega) w hw

/-- Every window except possibly the last has length exactly `r`. -/
theorem chunkList_full_windows (r : Nat) (hr : 0 < r) (l : List Nat) :
    ∀ i, i + 1 < (chunkList r l).length →
      ∃ w, (chunkList r l)[i]? = some w ∧ w.length = r := by
  suffices h : ∀ n (l : List Nat), l.length ≤ n → ∀ i,
      i + 1 < (chunkList r l).length →
      ∃ w, (chunkList r l)[i]? = some w ∧ w.length = r from h l.length l le_rfl
  intro n
  induction n with
  | zero =>
    intro l h i hi
    have hl : l = [] := List.eq_nil_of_length_eq_zero (Nat.le_zero.mp h)
    subst hl; simp [chunkList, chunkListFuel] at hi
  | succ n ih =>
    intro l hln i hi
    cases l with
    | nil => simp [chunkList, chunkListFuel] at hi
    | cons x xs =>
      rw [chunkList_cons_step r hr _ (List.cons_ne_nil x xs)] at hi ⊢
      cases i with
      | zero =>
        have hrest : chunkList r ((x :: xs).drop r) ≠ [] := by
          intro h0
          rw [h0] at hi
          simp at hi
        have hdrop : (x :: xs).drop r ≠ [] := by
          intro h0
          exact hrest (by rw [h0]; rfl)
        have hlt : r < (x :: xs).length := by
          by_contra hge
          push_neg at hge
          exact hdrop (List.drop_eq_nil_of_le hge)
        refine ⟨(x :: xs).take r, by simp, ?_⟩
        simp only [List.length_take, List.length_cons] at hlt ⊢
        omega
      | succ i =>
        simp only [List.getElem?_cons_succ]
        simp only [List.length_cons] at hi hln
        exact ih ((x :: xs).drop r)
          (by simp only [List.length_drop, List.length_cons]; omega) i
          (by omega)

/-- With `rows_per_call = 1` the windows are exactly the singletons, in
order. -/
theorem chunkList_one (l : List Nat) : chunkList 1 l = l.map (fun a => [a]) := by
  induction l with
  | nil => rfl
  | cons x xs ih =>
    rw [chunkList_cons_step 1 (by omega) _ (List.cons_ne_nil x xs)]
    simp only [List.take_succ_cons, List.take_zero, List.drop_succ_cons,
      List.drop_zero, List.map_cons, ih]

/-! ## Helper lemmas on the planner -/

theorem planIndices_sorted (t : List Row) : (planIndices t).Pairwise (· < ·) :=
  List.Pairwise.filter _ (List.pairwise_lt_range t.length)

theorem planIndices_mem (t : List Row) (i : Nat) :
    i ∈ planIndices t ↔ ∃ row, t[i]? = some row ∧ row.category = none := by
  unfold planIndices
  rw [List.mem_filter, List.mem_range]
  constructor
  · rintro ⟨hi, hq⟩
    cases ht : t[i]? with
    | none => simp [rowIsNull, ht] at hq
    | some row =>
      refine ⟨row, rfl, ?_⟩
      simp only [rowIsNull, ht] at hq
      exact Option.isNone_iff_eq_none.mp hq
  · rintro ⟨row, ht, hcat⟩
    obtain ⟨hlt, -⟩ := List.getElem?_eq_some.mp ht
    exact ⟨hlt, by simp [rowIsNull, ht, hcat]⟩

/-! ## C7 — batch planning -/

/-- C7: the planner selects exactly the null-`category` positions in table
order (a strictly increasing list), optionally truncates to the first
`batch_size` of them, and partitions them into consecutive windows of length
`rows_per_call` — the windows concatenate back to the eligible list, every
window is nonempty with length at most `rows_per_call`, and every window but
possibly the last has length exactly `rows_per_call`; in particular 25
unprocessed rows with `rows_per_call = 10` give exactly 3 batches of sizes
10, 10, 5. -/
theorem C7_batch_planner (t : List Row) (b : Option Nat) (r : Nat) (hr : 0 < r) :
    (chunkList r (truncPlan (planIndices t) b)).flatten =
      truncPlan (planIndices t) b ∧
    (∀ w ∈ chunkList r (truncPlan (planIndices t) b),
      0 < w.length ∧ w.length ≤ r) ∧
    (∀ i, i + 1 < (chunkList r (truncPlan (planIndices t) b)).length →
      ∃ w, (chunkList r (truncPlan (planIndices t) b))[i]? = some w ∧
        w.length = r) ∧
    (planIndices t).Pairwise (· < ·) ∧
    (∀ i, i ∈ planIndices t ↔ ∃ row, t[i]? = some row ∧ row.category = none) ∧
    (∀ k, k ≠ 0 → truncPlan (planIndices t) (some k) = (planIndices t).take k) ∧
    (chunkList 10 (planIndices (List.replicate 25 blankRow))).map List.length =
      [10, 10, 5] := by
  refine ⟨chunkList_flatten r hr _, chunkList_window_bounds r hr _,
    chunkList_full_windows r hr _, planIndices_sorted t, planIndices_mem t,
    fun k hk => by simp [truncPlan, hk], by rfl⟩

/-- Witness for C7: the windows of the 25-row all-unprocessed table
concatenate back to the planned list. -/
theorem C7_batch_planner_witness :
    (chunkList 10 (truncPlan (planIndices (List.replicate 25 blankRow))
        none)).flatten =
      truncPlan (planIndices (List.replicate 25 blankRow)) none :=
  (C7_batch_planner (List.replicate 25 blankRow) none 10 (by decide)).1

/-! ## Helper lemmas on the checkpoint cadence -/

theorem checkpointMaybe_fields (st : LoopState) :
    (checkpointMaybe st).crashed = st.crashed ∧
    (checkpointMaybe st).batchesDone = st.batchesDone ∧
    (checkpointMaybe st).table = st.table ∧
    (checkpointMaybe st).writes.length =
      st.writes.length + (if st.batchesDone % 10 = 0 then 1 else 0) := by
  unfold checkpointMaybe
  split <;> simp [*]

/-- On a crash-free run of the loop, the number of checkpoint writes grows by
exactly the number of batch numbers in the covered interval that are divisible
by 10, and the batch counter advances by the number of batches. -/
theorem runBatches_cadence (oracle : Nat → HttpResult) (bs : List (List Nat)) :
    ∀ st : LoopState, st.crashed = none →
      (runBatches oracle bs st).crashed = none →
      (runBatches oracle bs st).writes.length =
        st.writes.length + (st.batchesDone + bs.length) / 10 -
          st.batchesDone / 10 ∧
      (runBatches oracle bs st).batchesDone = st.batchesDone + bs.length := by
  induction bs with
  | nil => intro st h0 h1; simp [runBatches]
  | cons b bs ih =>
    intro st h0 h1
    simp only [runBatches] at h1 ⊢
    by_cases hcr : (runBatch oracle b st).crashed.isSome = true
    · rw [if_pos hcr] at h1
      rw [h1] at hcr
      simp at hcr
    · rw [if_neg hcr] at h1 ⊢
      have hnone : (runBatch oracle b st).crashed = none :=
        Option.not_isSome_iff_eq_none.mp hcr
      have hcm : (checkpointMaybe (runBatch oracle b st)).crashed = none := by
        rw [(checkpointMaybe_fields _).1, hnone]
      obtain ⟨hw, hbd⟩ := ih (checkpointMaybe (runBatch oracle b st)) hcm h1
      have hf := checkpointMaybe_fields (runBatch oracle b st)
      have hrb := runBatch_counters oracle b st
      rw [hf.2.1] at hw hbd
      rw [hf.2.2.2] at hw
      rw [hrb.2.2.1] at hw hbd
      rw [hrb.2.2.2] at hw
      constructor
      · rw [hw]
        by_cases hdv : (st.batchesDone + 1) % 10 = 0 <;>
          simp only [hdv, if_true, if_false, List.length_cons] <;> omega
      · rw [hbd]; simp only [List.length_cons]; omega

/-! ## C6 — checkpoint writes -/

/-- Counterexample to C6 as stated: a run on a table with no eligible rows
returns at line 282 before the loop, so *no* checkpoint is written — not even
the "unconditional" end-of-run write at line 372. -/
theorem C6_counterexample :
    (categorize_lookup_table emptyConfig true okOracle [doneRow] none
      10).writes = [] := by rfl

/-- C6 as amended: on a run that has at least one eligible row, a nonzero
`rows_per_call`, and no crash, the working table is checkpointed after every
10th batch and once more at the end of the run — the number of checkpoint
writes is exactly `numBatches / 10 + 1`, and the last write is the final
table.  A run with zero eligible rows returns early and writes nothing. -/
theorem C6_checkpoint_cadence (cfg : Config) (oracle : Nat → HttpResult)
    (t : List Row) (b : Option Nat) (r : Nat)
    (hp : truncPlan (planIndices t) b ≠ []) (hr : r ≠ 0)
    (hc : (categorize_lookup_table cfg true oracle t b r).crashed = none) :
    (categorize_lookup_table cfg true oracle t b r).writes.length =
      (categorize_lookup_table cfg true oracle t b r).numBatches / 10 + 1 ∧
    (categorize_lookup_table cfg true oracle t b r).writes.getLast? =
      some (categorize_lookup_table cfg true oracle t b r).table := by
  have hlen : ¬ (truncPlan (planIndices t) b).length = 0 := by
    intro h0
    exact hp (List.length_eq_zero.mp h0)
  unfold categorize_lookup_table at hc ⊢
  rw [if_neg (by simp)] at hc ⊢
  simp only at hc ⊢
  rw [if_neg hlen, if_neg hr] at hc ⊢
  rcases hsc : (runBatches oracle (chunkList r (truncPlan (planIndices t) b))
      { table := t, posts := 0, refreshes := 0, processed := 0, errors := 0,
        batchesDone := 0, writes := [], crashed := none }).crashed with _ | e
  · simp only at hc ⊢
    obtain ⟨hw, -⟩ := runBatches_cadence oracle
      (chunkList r (truncPlan (planIndices t) b))
      { table := t, posts := 0, refreshes := 0, processed := 0, errors := 0,
        batchesDone := 0, writes := [], crashed := none } rfl hsc
    constructor
    · simp only [List.length_append, List.length_cons, List.length_nil, hw]
      omega
    · exact List.getLast?_concat _
  · rw [hsc] at hc
    simp at hc

set_option maxRecDepth 10000 in
/-- Witness for C6: 25 eligible rows with one-row batches yield 25 batches and
exactly `25 / 10 + 1 = 3` checkpoint writes. -/
theorem C6_checkpoint_cadence_witness :
    (categorize_lookup_table emptyConfig true okOracle
        (List.replicate 25 blankRow) none 1).writes.length =
      (categorize_lookup_table emptyConfig true okOracle
        (List.replicate 25 blankRow) none 1).numBatches / 10 + 1 :=
  (C6_checkpoint_cadence emptyConfig okOracle (List.replicate 25 blankRow)
    none 1 (by decide) (by decide) (by decide)).1

/-! ## Frame lemmas: the loop only writes at batch positions -/

theorem pyGet_mem (l : List Nat) (i : Int) (a : Nat) (h : pyGet l i = some a) :
    a ∈ l := by
  unfold pyGet at h
  split at h
  · exact List.getElem?_mem h
  · split at h
    · exact List.getElem?_mem h
    · exact Option.noConfusion h

theorem setRowFields_getElem?_ne (t : List Row) (i j : Nat) (c s : Option String)
    (hij : i ≠ j) : (setRowFields t i c s)[j]? = t[j]? := by
  unfold setRowFields
  cases t[i]? <;> simp [List.getElem?_set_ne hij]

theorem markAll_getElem?_not_mem (idxs : List Nat) :
    ∀ (t : List Row) (c s : Option String) (j : Nat), j ∉ idxs →
      (markAll t idxs c s)[j]? = t[j]? := by
  induction idxs with
  | nil => intro t c s j _; rfl
  | cons i rest ih =>
    intro t c s j h
    have hij : i ≠ j := fun he => h (he ▸ List.mem_cons_self i rest)
    have hrest : j ∉ rest := fun hm => h (List.mem_cons_of_mem i hm)
    show (markAll (setRowFields t i c s) rest c s)[j]? = t[j]?
    rw [ih _ c s j hrest, setRowFields_getElem?_ne t i j c s hij]

theorem applyItems_table_preserve (items : List JsonItem) :
    ∀ (t : List Row) (bIdx : List Nat) (p j : Nat), j ∉ bIdx →
      ((applyItems items t bIdx p).1)[j]? = t[j]? := by
  induction items with
  | nil => intro t bIdx p j _; rfl
  | cons it rest ih =>
    intro t bIdx p j h
    cases it with
    | bad => rfl
    | good i c s =>
      rw [applyItems]
      split
      · cases hg : pyGet bIdx i with
        | none => simp [hg]
        | some a =>
          have ha : a ≠ j := fun he => h (he ▸ pyGet_mem bIdx i a hg)
          simp only [hg]
          rw [ih _ bIdx (p + 1) j h, setRowFields_getElem?_ne t a j _ _ ha]
      · exact ih t bIdx p j h

theorem handleResponse_applied_table (s : Nat) (txt : CompletionText)
    (t : List Row) (bIdx : List Nat) (T : List Row) (d : Nat)
    (c : Option String) (j : Nat) (hj : j ∉ bIdx)
    (h : handleResponse s txt t bIdx = .applied T d c) : T[j]? = t[j]? := by
  unfold handleResponse at h
  split at h
  · exact BatchOutcome.noConfusion h
  · cases txt with
    | notJson => exact BatchOutcome.noConfusion h
    | jsonArray items =>
      injection h with h1 h2 h3
      rw [← h1]
      exact applyItems_table_preserve items t bIdx 0 j hj

theorem classifyBatch_applied_table (oracle : Nat → HttpResult) (p : Nat)
    (t : List Row) (bIdx : List Nat) (T : List Row) (d : Nat)
    (c : Option String) (j : Nat) (hj : j ∉ bIdx)
    (h : (classifyBatch oracle p t bIdx).1 = .applied T d c) : T[j]? = t[j]? := by
  cases ho : oracle p with
  | transportError e =>
    have hc : classifyBatch oracle p t bIdx = (.apiFailed e, 1, 0) := by
      simp [classifyBatch, ho]
    rw [hc] at h
    exact BatchOutcome.noConfusion h
  | response s1 t1 =>
    by_cases hs : s1 = 401
    · subst hs
      cases ho2 : oracle (p + 1) with
      | transportError e =>
        have hc : classifyBatch oracle p t bIdx = (.apiFailed e, 2, 1) := by
          simp [classifyBatch, ho, ho2]
        rw [hc] at h
        exact BatchOutcome.noConfusion h
      | response s2 t2 =>
        have hc : classifyBatch oracle p t bIdx =
            (handleResponse s2 t2 t bIdx, 2, 1) := by
          simp [classifyBatch, ho, ho2]
        rw [hc] at h
        exact handleResponse_applied_table s2 t2 t bIdx T d c j hj h
    · have hc : classifyBatch oracle p t bIdx =
          (handleResponse s1 t1 t bIdx, 1, 0) := by
        simp [classifyBatch, ho, hs]
      rw [hc] at h
      exact handleResponse_applied_table s1 t1 t bIdx T d c j hj h

theorem runBatch_table_preserve (oracle : Nat → HttpResult) (bIdx : List Nat)
    (st : LoopState) (j : Nat) (hj : j ∉ bIdx) :
    (runBatch oracle bIdx st).table[j]? = st.table[j]? := by
  unfold runBatch
  rcases hc : classifyBatch oracle st.posts st.table bIdx with ⟨outcome, dp, dr⟩
  cases outcome with
  | applied T d c =>
    simp only [hc]
    exact classifyBatch_applied_table oracle st.posts st.table bIdx T d c j hj
      (by rw [hc])
  | parseFailed =>
    simp only [hc]
    exact markAll_getElem?_not_mem bIdx st.table _ _ j hj
  | apiFailed e =>
    simp only [hc]
    exact markAll_getElem?_not_mem bIdx st.table _ _ j hj

theorem runBatches_table_preserve (oracle : Nat → HttpResult) :
    ∀ (bs : List (List Nat)) (st : LoopState) (j : Nat),
      (∀ w ∈ bs, j ∉ w) → (runBatches oracle bs st).table[j]? = st.table[j]? := by
  intro bs
  induction bs with
  | nil => intro st j _; rfl
  | cons b rest ih =>
    intro st j h
    simp only [runBatches]
    by_cases hcr : (runBatch oracle b st).crashed.isSome = true
    · rw [if_pos hcr]
      exact runBatch_table_preserve oracle b st j (h b (List.mem_cons_self b rest))
    · rw [if_neg hcr]
      rw [ih (checkpointMaybe (runBatch oracle b st)) j
        (fun w hw => h w (List.mem_cons_of_mem b hw))]
      rw [(checkpointMaybe_fields (runBatch oracle b st)).2.2.1]
      exact runBatch_table_preserve oracle b st j (h b (List.mem_cons_self b rest))

/-! ## Plan lemmas for the retry entry point -/

/-- The positional filter over positions counts the same rows as the row
filter. -/
theorem posFilter_length (q : Row → Bool) :
    ∀ t : List Row,
      ((List.range t.length).filter (fun i =>
        match t[i]? with | some r => q r | none => false)).length =
      (t.filter q).length := by
  intro t
  induction t with
  | nil => rfl
  | cons x xs ih =>
    have hmap : ((List.range xs.length).map Nat.succ).filter
        (fun i => match (x :: xs)[i]? with | some r => q r | none => false) =
        ((List.range xs.length).filter
          (fun i => match xs[i]? with | some r => q r | none => false)).map
          Nat.succ := by
      rw [List.filter_map]
      congr 1
      apply List.filter_congr
      intro i _
      simp [Function.comp, List.getElem?_cons_succ]
    show ((List.range (xs.length + 1)).filter _).length = _
    rw [List.range_succ_eq_map, List.filter_cons, List.filter_cons]
    by_cases hx : q x = true <;>
      simp [List.getElem?_cons_zero, hx, hmap, ih]

/-- Under the hypothesis that every non-sentinel row is categorized, the rows
eligible after clearing are exactly the sentinel positions. -/
theorem planIndices_cleared (t : List Row)
    (h : ∀ r ∈ t, isErrorRow r = false → r.category ≠ none) :
    planIndices (clearedTable t) = errorPositions t := by
  unfold planIndices errorPositions
  rw [show (clearedTable t).length = t.length from List.length_map t _]
  apply List.filter_congr
  intro i hi
  rw [List.mem_range] at hi
  have ht : t[i]? = some t[i] := List.getElem?_eq_getElem hi
  have hc : (clearedTable t)[i]? = some (if isErrorRow t[i] then
      { t[i] with category := none, subCategory := none } else t[i]) := by
    unfold clearedTable
    rw [List.getElem?_map, ht]
    rfl
  simp only [rowIsNull, hc, ht]
  by_cases he : isErrorRow t[i] = true
  · simp [he]
  · have hb : isErrorRow t[i] = false := by
      cases hq : isErrorRow t[i]
      · rfl
      · exact absurd hq he
    have hcat : t[i].category ≠ none := h t[i] (List.getElem_mem hi) hb
    simp [hb, Option.isNone_iff_eq_none, hcat, Option.isSome_iff_ne_none]

theorem truncPlan_length_self (l : List Nat) (n : Nat) (hn : l.length = n) :
    truncPlan l (some n) = l := by
  show (if n = 0 then l else l.take n) = l
  by_cases h0 : n = 0
  · rw [if_pos h0]
  · rw [if_neg h0, ← hn, List.take_length]

/-! ## C3 — retry isolation -/

/-- Counterexample to C3 as stated: on the table
`[{category: null}, {category: PARSE_ERROR}]` (N = 1 sentinel row, M = 1 other
row), `retry_errors` clears the sentinel row and re-runs with
`batch_size = 1`, but the re-run plans the *first* null-category row of the
table — the never-processed row 0 — so the "other" row 0 is categorized
(touched) while the cleared sentinel row 1 is not retried at all. -/
theorem C3_counterexample :
    (retry_errors emptyConfig true okOracle
        [⟨"a", "x", none, none⟩,
         ⟨"b", "y", some "PARSE_ERROR", some "Retry needed"⟩]).table =
      [⟨"a", "x", some "Development", some "IDEs"⟩, ⟨"b", "y", none, none⟩] := by
  rfl

/-- C3 as amended: `retry_errors` clears exactly the N sentinel rows to null
and re-runs the orchestration with `rows_per_call = 1` and `batch_size = N`
over the first N null-category rows of the table.  When every non-sentinel row
already has a non-null category — i.e. the table has no unprocessed clean
rows — this plan is exactly the N sentinel positions as one-row batches, the
run has N batches, and every non-sentinel row is left untouched whatever the
completion service answers.  (With unprocessed clean rows present, those can
be planned in place of later sentinel rows, as the counterexample shows.) -/
theorem C3_retry_isolation (cfg : Config) (oracle : Nat → HttpResult)
    (t : List Row)
    (h : ∀ r ∈ t, isErrorRow r = false → r.category ≠ none) :
    (∀ (j : Nat) (r : Row), t[j]? = some r → isErrorRow r = false →
      (retry_errors cfg true oracle t).table[j]? = some r) ∧
    (retry_errors cfg true oracle t).numBatches =
      (t.filter isErrorRow).length ∧
    truncPlan (planIndices (clearedTable t))
      (some (t.filter isErrorRow).length) = errorPositions t ∧
    chunkList 1 (errorPositions t) = (errorPositions t).map (fun i => [i]) := by
  have hplan : planIndices (clearedTable t) = errorPositions t :=
    planIndices_cleared t h
  have hlen : (errorPositions t).length = (t.filter isErrorRow).length :=
    posFilter_length isErrorRow t
  have htrunc : truncPlan (planIndices (clearedTable t))
      (some (t.filter isErrorRow).length) = errorPositions t := by
    rw [hplan]
    exact truncPlan_length_self _ _ hlen
  have hchunk : chunkList 1 (errorPositions t) =
      (errorPositions t).map (fun i => [i]) := chunkList_one _
  by_cases hN : (t.filter isErrorRow).length = 0
  · have hret : retry_errors cfg true oracle t =
        { table := t, writes := [], posts := 0, refreshes := 0,
          tokenFetches := 0, numBatches := 0, processed := 0, errors := 0,
          crashed := none } := by
      simp [retry_errors, hN]
    refine ⟨?_, ?_, htrunc, hchunk⟩
    · intro j r hj _
      simp only [hret]
      exact hj
    · simp only [hret]
      rw [hN]
  · have hret : retry_errors cfg true oracle t =
        categorize_lookup_table cfg true oracle (clearedTable t)
          (some (t.filter isErrorRow).length) 1 := by
      simp [retry_errors, hN]
    have hlen0 : ¬ (truncPlan (planIndices (clearedTable t))
        (some (t.filter isErrorRow).length)).length = 0 := by
      rw [htrunc, hlen]
      exact hN
    refine ⟨?_, ?_, htrunc, hchunk⟩
    · intro j r hj hjq
      -- the row at j is not a sentinel position, hence in no batch
      have hjpos : j ∉ errorPositions t := by
        intro hm
        unfold errorPositions at hm
        obtain ⟨-, hq⟩ := List.mem_filter.mp hm
        rw [hj] at hq
        simp only at hq
        rw [hjq] at hq
        exact Bool.noConfusion hq
      have hjbatch : ∀ w ∈ chunkList 1
          (truncPlan (planIndices (clearedTable t))
            (some (t.filter isErrorRow).length)), j ∉ w := by
        rw [htrunc, hchunk]
        intro w hw hjw
        obtain ⟨i, hi, hwi⟩ := List.mem_map.mp hw
        rw [← hwi] at hjw
        rcases List.mem_singleton.mp hjw with rfl
        exact hjpos hi
      have hcl : (clearedTable t)[j]? = some r := by
        unfold clearedTable
        rw [List.getElem?_map, hj]
        simp [hjq]
      rw [hret]
      unfold categorize_lookup_table
      rw [if_neg (by simp)]
      simp only
      rw [if_neg hlen0, if_neg one_ne_zero]
      rcases hsc : (runBatches oracle
          (chunkList 1 (truncPlan (planIndices (clearedTable t))
            (some (t.filter isErrorRow).length)))
          { table := clearedTable t, posts := 0, refreshes := 0, processed := 0,
            errors := 0, batchesDone := 0, writes := [],
            crashed := none }).crashed with _ | e
      all_goals
        simp only
        rw [runBatches_table_preserve oracle _ _ j hjbatch]
        exact hcl
    · rw [hret]
      unfold categorize_lookup_table
      rw [if_neg (by simp)]
      simp only
      rw [if_neg hlen0, if_neg one_ne_zero]
      rcases hsc : (runBatches oracle
          (chunkList 1 (truncPlan (planIndices (clearedTable t))
            (some (t.filter isErrorRow).length)))
          { table := clearedTable t, posts := 0, refreshes := 0, processed := 0,
            errors := 0, batchesDone := 0, writes := [],
            crashed := none }).crashed with _ | e
      all_goals
        simp only
        rw [htrunc, hchunk, List.length_map, hlen]

/-- Witness for C3 on a concrete table with one sentinel row and one
categorized clean row: the clean row is untouched by the retry. -/
theorem C3_retry_isolation_witness :
    (retry_errors emptyConfig true okOracle
        [doneRow, ⟨"b", "y", some "API_ERROR", some "boom"⟩]).table[0]? =
      some doneRow :=
  (C3_retry_isolation emptyConfig okOracle
      [doneRow, ⟨"b", "y", some "API_ERROR", some "boom"⟩] (by decide)).1 0
    doneRow (by decide) (by decide)

end SpendStreamlet
